import Mathlib

/-!
Shallow embedding of `convert_audio.py`, an ffmpeg-based batch converter of
`.m4a` audio files to `.mp3` or `.wav`.

The external world (subprocess launches) is modelled as an oracle mapping an
argument vector to either a process exit code or a launch failure
(Python `FileNotFoundError`).  The filesystem is modelled as a root-existence
flag plus the list of entries (relative component paths) under the root.
-/

/-- Outcome of attempting to launch one subprocess: either the process ran and
exited with a code, or the launch itself failed (e.g. executable not found,
which Python surfaces as `FileNotFoundError`). -/
inductive ProcResult where
  | exited (code : Nat)
  | launchFailure (msg : String)
deriving DecidableEq

/-- The subprocess environment: what happens when a given argv is run. -/
def ProcEnv : Type := List String → ProcResult

/-- Python exceptions that can escape the embedded functions. -/
inductive PyExn where
  | fileNotFoundError (msg : String)
deriving DecidableEq

/-- The argv of the preflight probe `subprocess.run(['ffmpeg', '-version'], ...)`. -/
def ffmpegVersionCmd : List String := ["ffmpeg", "-version"]

/-- Embedding of `check_ffmpeg()` from the source: runs `ffmpeg -version` with `check=True`
and returns `True` unless `CalledProcessError` (nonzero exit) or
`FileNotFoundError` (launch failure) is raised. -/
def check_ffmpeg (env : ProcEnv) : Bool :=
  match env ffmpegVersionCmd with
  | .exited 0 => true
  | .exited _ => false
  | .launchFailure _ => false

/-- A `pathlib.Path`, as its list of components. -/
structure PyPath where
  parts : List String
deriving DecidableEq

/-- Rendering `str(path)`: components joined by the separator. -/
def PyPath.toStr (p : PyPath) : String := String.intercalate "/" p.parts

/-- Python `Path.name`: the final component (empty for a bare path). -/
def pyName (p : PyPath) : String := p.parts.getLastD ""

/-- Index of the last occurrence of a character in a list, if any. -/
def lastIdxOf (ch : Char) : List Char → Option Nat
  | [] => none
  | c :: rest =>
    match lastIdxOf ch rest with
    | some i => some (i + 1)
    | none => if c = ch then some 0 else none

/-- Python `Path.stem` per pathlib: drop the final suffix, where the final suffix is
`name[i:]` for `i` the index of the last dot provided `0 < i < len(name) - 1`;
otherwise the stem is the whole name. -/
def pyStem (s : String) : String :=
  match lastIdxOf '.' s.data with
  | none => s
  | some i => if 0 < i ∧ i < s.data.length - 1 then ⟨s.data.take i⟩ else s

/-- The input to one `convert_audio` call (spec: ConversionRequest). -/
structure ConversionRequest where
  inputFile : PyPath
  outputFormat : String
  outputDir : Option PyPath
  quality : String
deriving DecidableEq

/-- The value `convert_audio` returns when no exception escapes:
`(True, output_file)` or `(False, str(e))` (spec: ConversionOutcome). -/
inductive ConvertReturn where
  | success (outputFile : PyPath)
  | failure (detail : String)
deriving DecidableEq

/-- Whether a `ConvertReturn` is the success variant (the `True` component of
the Python pair). -/
def isSuccessRet : ConvertReturn → Bool
  | .success _ => true
  | .failure _ => false

/-- The `out_dir` as resolved by `convert_audio`: the explicit output directory if
given, else the input file's parent (lines 39-43 of the source). -/
def outDirOf (req : ConversionRequest) : PyPath :=
  match req.outputDir with
  | some d => d
  | none => ⟨req.inputFile.parts.dropLast⟩

/-- The `output_file = out_dir / f"{input_path.stem}.{output_format}"` (line 46). -/
def outputFile (req : ConversionRequest) : PyPath :=
  ⟨(outDirOf req).parts ++ [pyStem (pyName req.inputFile) ++ "." ++ req.outputFormat]⟩

/-- The format/quality-dependent encoder arguments (lines 52-60): mp3 selects
libmp3lame with a bitrate keyed on quality (anything but high/medium falls to
the `else` 128k branch), wav selects pcm_s16le, any other format adds nothing. -/
def codecArgs (fmt q : String) : List String :=
  if fmt = "mp3" then
    if q = "high" then ["-codec:a", "libmp3lame", "-b:a", "320k"]
    else if q = "medium" then ["-codec:a", "libmp3lame", "-b:a", "192k"]
    else ["-codec:a", "libmp3lame", "-b:a", "128k"]
  else if fmt = "wav" then ["-codec:a", "pcm_s16le"]
  else []

/-- The full ffmpeg argv built by `convert_audio` (lines 49-62):
`['ffmpeg', '-i', str(input)] + codec args + ['-y', str(output)]`. -/
def buildCmd (req : ConversionRequest) : List String :=
  ["ffmpeg", "-i", req.inputFile.toStr] ++
    codecArgs req.outputFormat req.quality ++ ["-y", (outputFile req).toStr]

/-- Python's `repr` of a string (single-quoted). -/
def pyReprStr (s : String) : String := "\x27" ++ s ++ "\x27"

/-- Python's `str` of a list of strings: `['a', 'b']`. -/
def pyReprList (xs : List String) : String :=
  "[" ++ String.intercalate ", " (xs.map pyReprStr) ++ "]"

/-- Rendering `str(e)` for `e : subprocess.CalledProcessError` with list `cmd` and a
nonzero return code: `Command '<cmd>' returned non-zero exit status <c>.` -/
def cpeStr (cmd : List String) (c : Nat) : String :=
  "Command \x27" ++ pyReprList cmd ++ "\x27 " ++
    ("returned non-zero exit status " ++ (toString c ++ "."))

/-- What one `convert_audio` call does: its returned value (or the escaping
exception) and the directory on which `mkdir(parents=True, exist_ok=True)`
was invoked, if any. -/
structure ConvertRun where
  result : Except PyExn ConvertReturn
  mkdirTarget : Option PyPath

/-- Embedding of `convert_audio(input_file, output_format, output_dir, quality)`.
`subprocess.run(cmd, ..., check=True)` raises `CalledProcessError` on a
nonzero exit, which the function catches and maps to `(False, str(e))`;
exit 0 yields `(True, output_file)`.  A launch failure raises
`FileNotFoundError`, which the `except` clause (line 71) does not catch, so
it escapes as an exception.  `out_dir.mkdir(parents=True, exist_ok=True)` is
called exactly when `output_dir` is given (lines 39-41). -/
def convert_audio (env : ProcEnv) (req : ConversionRequest) : ConvertRun :=
  { result :=
      match env (buildCmd req) with
      | .exited 0 => .ok (.success (outputFile req))
      | .exited c => .ok (.failure (cpeStr (buildCmd req) c))
      | .launchFailure m => .error (.fileNotFoundError m)
    mkdirTarget := req.outputDir }

/-- The filesystem under the input root: whether the root exists, and the
entries beneath it as relative component paths (each nonempty, depth = length). -/
structure FS where
  rootExists : Bool
  entries : List (List String)
deriving DecidableEq

/-- Whether an entry name matches the glob pattern `*.m4a`: `*` matches any
(possibly empty) run of characters, so the pattern matches exactly the names
ending in `.m4a`. -/
def m4aMatch (name : String) : Bool := ".m4a".data.isSuffixOf name.data

/-- File discovery (lines 93-96): `rglob('*.m4a')` matches at every depth
under the root, `glob('*.m4a')` only direct children (relative depth 1). -/
def discover (fs : FS) (recursive : Bool) : List (List String) :=
  if recursive then
    fs.entries.filter (fun p => m4aMatch (p.getLastD ""))
  else
    fs.entries.filter (fun p => p.length == 1 && m4aMatch (p.getLastD ""))

/-- The discovered `.m4a` files as absolute paths under the root. -/
def m4aFiles (fs : FS) (root : PyPath) (recursive : Bool) : List PyPath :=
  (discover fs recursive).map (fun rel => ⟨root.parts ++ rel⟩)

/-- Observable outcome of one `batch_convert` run (spec: BatchResult plus the
early-abort cases). -/
inductive BatchOutcome where
  | noInputDir
  | noFiles
  | raised (e : PyExn)
  | report (pairs : List (PyPath × ConvertReturn)) (successCount failCount : Nat)
deriving DecidableEq

/-- The per-file loop of `batch_convert` (lines 110-120): convert each file in
order, record the (file, outcome) pair, and bump `success_count` or
`fail_count`; an exception escaping `convert_audio` aborts the loop. -/
def processFiles (env : ProcEnv) (fmt : String) (outDir : Option PyPath) (q : String) :
    List PyPath → List (PyPath × ConvertReturn) → Nat → Nat →
      Except PyExn (List (PyPath × ConvertReturn) × Nat × Nat)
  | [], acc, s, f => .ok (acc, s, f)
  | file :: rest, acc, s, f =>
    match (convert_audio env ⟨file, fmt, outDir, q⟩).result with
    | .error e => .error e
    | .ok r =>
      processFiles env fmt outDir q rest (acc ++ [(file, r)])
        (if isSuccessRet r then s + 1 else s)
        (if isSuccessRet r then f else f + 1)

/-- Embedding of `batch_convert(input_dir, output_format, output_dir, quality, recursive)`
(lines 75-125): abort if the root does not exist, abort if no `.m4a` file
matches, otherwise process every matched file and report the counters. -/
def batch_convert (env : ProcEnv) (fs : FS) (root : PyPath) (fmt : String)
    (outDir : Option PyPath) (q : String) (recursive : Bool) : BatchOutcome :=
  if fs.rootExists then
    if (m4aFiles fs root recursive).isEmpty then .noFiles
    else
      match processFiles env fmt outDir q (m4aFiles fs root recursive) [] 0 0 with
      | .error e => .raised e
      | .ok (ps, s, f) => .report ps s f
  else .noInputDir

/-! Section: Concrete instances used in counterexamples and witnesses -/

/-- An environment in which every launch succeeds and exits 0. -/
def envAllOk : ProcEnv := fun _ => .exited 0

/-- An environment in which every launch succeeds but exits 1. -/
def envAllFail : ProcEnv := fun _ => .exited 1

/-- An environment in which every launch fails (executable not found). -/
def envNoFfmpeg : ProcEnv := fun _ =>
  .launchFailure "[Errno 2] No such file or directory: \x27ffmpeg\x27"

/-- A sample request: convert `song.m4a` to mp3 next to the input. -/
def reqSample : ConversionRequest := ⟨⟨["music", "song.m4a"]⟩, "mp3", none, "high"⟩

/-! Section: C4: preflight availability -/

/-- C4 counterexample: in an environment where the version probe launches and
exits cleanly but with exit code 1, `check_ffmpeg` reports the tool as
unavailable — so availability IS determined by the probe's exit status,
contrary to the claim. -/
theorem check_ffmpeg_exit1_counterexample :
    envAllFail ffmpegVersionCmd = .exited 1 ∧ check_ffmpeg envAllFail = false :=
  ⟨rfl, rfl⟩

/-- C4 (amended): the preflight accepts ffmpeg as available exactly when the
version probe launches and exits with status 0; a nonzero probe exit (which
`check=True` turns into `CalledProcessError`) or a launch failure both yield
unavailable. -/
theorem check_ffmpeg_iff_exit_zero (env : ProcEnv) :
    check_ffmpeg env = true ↔ env ffmpegVersionCmd = .exited 0 := by
  unfold check_ffmpeg
  rcases h : env ffmpegVersionCmd with c | m
  · cases c <;> simp
  · simp

/-! Section: C1: result mapping of convert_audio -/

/-- C1 counterexample: when the launch of ffmpeg itself fails (executable not
found), `convert_audio` does not return a Failure value — the
`FileNotFoundError` escapes as an exception, since only `CalledProcessError`
is caught. -/
theorem convert_launch_failure_counterexample :
    (convert_audio envNoFfmpeg reqSample).result =
      .error (.fileNotFoundError
        "[Errno 2] No such file or directory: \x27ffmpeg\x27") :=
  rfl

/-- C1 (amended): `convert_audio` maps exit code 0 to Success carrying the
resolved output path and any nonzero exit to Failure carrying `str(e)` of the
`CalledProcessError`, a human-readable detail naming the command and the
nonzero exit status (it always embeds the text `returned non-zero exit
status`); a failure to launch the process is NOT converted to a Failure value
but escapes as a `FileNotFoundError` exception. -/
theorem convert_result_mapping (env : ProcEnv) (req : ConversionRequest) :
    ((convert_audio env req).result =
      match env (buildCmd req) with
      | .exited 0 => .ok (.success (outputFile req))
      | .exited c => .ok (.failure (cpeStr (buildCmd req) c))
      | .launchFailure m => .error (.fileNotFoundError m)) ∧
    (∀ c, ∃ pre post, cpeStr (buildCmd req) c =
      pre ++ ("returned non-zero exit status " ++ post)) :=
  ⟨rfl, fun c =>
    ⟨"Command \x27" ++ pyReprList (buildCmd req) ++ "\x27 ", toString c ++ ".", rfl⟩⟩

/-! Section: C3: mp3 bitrate selection -/

/-- C3: for mp3 requests the argv selects the LAME mp3 encoder `libmp3lame`
with a bitrate determined solely by quality — high gives 320k, medium 192k,
low 128k — deterministically (the argv is a pure function of the request). -/
theorem mp3_bitrate_by_quality (input : PyPath) (outDir : Option PyPath) :
    buildCmd ⟨input, "mp3", outDir, "high"⟩ =
      ["ffmpeg", "-i", input.toStr, "-codec:a", "libmp3lame", "-b:a", "320k",
        "-y", (outputFile ⟨input, "mp3", outDir, "high"⟩).toStr] ∧
    buildCmd ⟨input, "mp3", outDir, "medium"⟩ =
      ["ffmpeg", "-i", input.toStr, "-codec:a", "libmp3lame", "-b:a", "192k",
        "-y", (outputFile ⟨input, "mp3", outDir, "medium"⟩).toStr] ∧
    buildCmd ⟨input, "mp3", outDir, "low"⟩ =
      ["ffmpeg", "-i", input.toStr, "-codec:a", "libmp3lame", "-b:a", "128k",
        "-y", (outputFile ⟨input, "mp3", outDir, "low"⟩).toStr] :=
  ⟨rfl, rfl, rfl⟩

/-! Section: C6: wav ignores quality -/

/-- C6: two wav requests differing only in quality produce the identical argv,
which requests the uncompressed signed 16-bit little-endian encoder
`pcm_s16le`; quality has no observable effect on the command. -/
theorem wav_quality_noninterference (input : PyPath) (outDir : Option PyPath)
    (q1 q2 : String) :
    buildCmd ⟨input, "wav", outDir, q1⟩ = buildCmd ⟨input, "wav", outDir, q2⟩ ∧
    buildCmd ⟨input, "wav", outDir, q1⟩ =
      ["ffmpeg", "-i", input.toStr, "-codec:a", "pcm_s16le",
        "-y", (outputFile ⟨input, "wav", outDir, q1⟩).toStr] :=
  ⟨rfl, rfl⟩

/-! Section: C9: unknown quality falls through to 128k -/

/-- C9: for an mp3 request with any quality other than `high` or `medium`
(including values outside the documented enum) the `else` branch applies, so
the argv equals the one built for quality `low`, with the 128k bitrate;
quality is not validated by `convert_audio`. -/
theorem mp3_unknown_quality_is_low (input : PyPath) (outDir : Option PyPath)
    (q : String) (h1 : q ≠ "high") (h2 : q ≠ "medium") :
    buildCmd ⟨input, "mp3", outDir, q⟩ = buildCmd ⟨input, "mp3", outDir, "low"⟩ ∧
    codecArgs "mp3" q = ["-codec:a", "libmp3lame", "-b:a", "128k"] := by
  constructor
  · simp [buildCmd, codecArgs, outputFile, outDirOf, h1, h2]
  · simp [codecArgs, h1, h2]

/-- C9 witness: the undocumented quality string `ultra` yields the same argv
as `low`. -/
theorem mp3_unknown_quality_is_low_witness :
    buildCmd ⟨⟨["a.m4a"]⟩, "mp3", none, "ultra"⟩ =
      buildCmd ⟨⟨["a.m4a"]⟩, "mp3", none, "low"⟩ ∧
    codecArgs "mp3" "ultra" = ["-codec:a", "libmp3lame", "-b:a", "128k"] :=
  mp3_unknown_quality_is_low ⟨["a.m4a"]⟩ none "ultra" (by decide) (by decide)

/-! Section: C10: unknown output format -/

/-- C10: for any output format other than `mp3` and `wav` no codec arguments
are added at all: the argv is exactly `ffmpeg -i <input> -y <output>`, and the
unvalidated format string is used verbatim as the extension of the output
file's name. -/
theorem unknown_format_no_codec (input : PyPath) (outDir : Option PyPath)
    (q fmt : String) (h1 : fmt ≠ "mp3") (h2 : fmt ≠ "wav") :
    buildCmd ⟨input, fmt, outDir, q⟩ =
      ["ffmpeg", "-i", input.toStr, "-y",
        (outputFile ⟨input, fmt, outDir, q⟩).toStr] ∧
    pyName (outputFile ⟨input, fmt, outDir, q⟩) =
      pyStem (pyName input) ++ "." ++ fmt := by
  refine ⟨by simp [buildCmd, codecArgs, h1, h2], ?_⟩
  simp [pyName, outputFile]

/-- C10 witness: format `ogg` yields `ffmpeg -i a.m4a -y a.ogg` with no codec
arguments. -/
theorem unknown_format_no_codec_witness :
    buildCmd ⟨⟨["a.m4a"]⟩, "ogg", none, "high"⟩ =
      ["ffmpeg", "-i", (PyPath.mk ["a.m4a"]).toStr, "-y",
        (outputFile ⟨⟨["a.m4a"]⟩, "ogg", none, "high"⟩).toStr] ∧
    pyName (outputFile ⟨⟨["a.m4a"]⟩, "ogg", none, "high"⟩) =
      pyStem (pyName ⟨["a.m4a"]⟩) ++ "." ++ "ogg" :=
  unknown_format_no_codec ⟨["a.m4a"]⟩ none "high" "ogg" (by decide) (by decide)

/-! Section: C7: discovery -/

/-- A tree with `.m4a` matches at depth 1 (`a.m4a`, `b.m4a`) and at depth 2
(`sub/c.m4a`), plus non-matching entries. -/
def fsTree12 : FS :=
  ⟨true, [["a.m4a"], ["b.m4a"], ["sub"], ["sub", "c.m4a"], ["notes.txt"]]⟩

/-- C7: discovery enumerates exactly the entries whose name matches `*.m4a`:
non-recursively only the direct children of the root (relative depth 1),
recursively the matches at every depth; on a tree with matches at depth 1 and
depth 2, non-recursive discovery yields only the depth-1 matches and recursive
discovery yields both. -/
theorem discovery_by_depth :
    (∀ (fs : FS) (p : List String), p ∈ discover fs false ↔
      p ∈ fs.entries ∧ p.length = 1 ∧ m4aMatch (p.getLastD "") = true) ∧
    (∀ (fs : FS) (p : List String), p ∈ discover fs true ↔
      p ∈ fs.entries ∧ m4aMatch (p.getLastD "") = true) ∧
    discover fsTree12 false = [["a.m4a"], ["b.m4a"]] ∧
    discover fsTree12 true = [["a.m4a"], ["b.m4a"], ["sub", "c.m4a"]] := by
  refine ⟨fun fs p => ?_, fun fs p => ?_, by decide, by decide⟩
  · simp [discover, List.mem_filter, and_assoc]
  · simp [discover, List.mem_filter]

/-! Section: Lemmas about the processing loop -/

/-- The two filter halves of a list partition its length. -/
theorem length_filter_bool_split (p : α → Bool) (l : List α) :
    (l.filter p).length + (l.filter fun a => !p a).length = l.length := by
  induction l with
  | nil => rfl
  | cons a l ih =>
    by_cases h : p a <;> simp [List.filter_cons, h] <;> omega

/-- If the loop finishes without an exception, it has appended one pair per
file (in order) and the counters count exactly the success/failure pairs. -/
theorem processFiles_ok_spec (env : ProcEnv) (fmt : String)
    (outDir : Option PyPath) (q : String) :
    ∀ (files : List PyPath) (acc : List (PyPath × ConvertReturn)) (s f : Nat)
      (ps : List (PyPath × ConvertReturn)) (s2 f2 : Nat),
      processFiles env fmt outDir q files acc s f = .ok (ps, s2, f2) →
      s = (acc.filter fun pr => isSuccessRet pr.2).length →
      f = (acc.filter fun pr => !isSuccessRet pr.2).length →
      ps.map Prod.fst = acc.map Prod.fst ++ files ∧
      s2 = (ps.filter fun pr => isSuccessRet pr.2).length ∧
      f2 = (ps.filter fun pr => !isSuccessRet pr.2).length := by
  intro files
  induction files with
  | nil =>
    intro acc s f ps s2 f2 h hs hf
    simp only [processFiles, Except.ok.injEq, Prod.mk.injEq] at h
    obtain ⟨h1, h2, h3⟩ := h
    subst h1; subst h2; subst h3
    simp [hs, hf]
  | cons file rest ih =>
    intro acc s f ps s2 f2 h hs hf
    simp only [processFiles] at h
    cases hr : (convert_audio env ⟨file, fmt, outDir, q⟩).result with
    | error e => rw [hr] at h; simp at h
    | ok r =>
      rw [hr] at h
      simp only at h
      have hrec := ih (acc ++ [(file, r)])
        (if isSuccessRet r then s + 1 else s)
        (if isSuccessRet r then f else f + 1) ps s2 f2 h ?_ ?_
      · obtain ⟨h1, h2, h3⟩ := hrec
        refine ⟨?_, h2, h3⟩
        rw [h1]; simp
      · rw [hs]
        cases hsr : isSuccessRet r <;> simp [List.filter_append, hsr]
      · rw [hf]
        cases hsr : isSuccessRet r <;> simp [List.filter_append, hsr]

/-- If every launch in the environment produces an exit code (no launch
failures), the loop never raises. -/
theorem processFiles_no_raise (env : ProcEnv) (fmt : String)
    (outDir : Option PyPath) (q : String)
    (henv : ∀ cmd, ∃ c, env cmd = .exited c) :
    ∀ (files : List PyPath) (acc : List (PyPath × ConvertReturn)) (s f : Nat),
      ∃ out, processFiles env fmt outDir q files acc s f = .ok out := by
  intro files
  induction files with
  | nil => intro acc s f; exact ⟨(acc, s, f), rfl⟩
  | cons file rest ih =>
    intro acc s f
    obtain ⟨c, hc⟩ := henv (buildCmd ⟨file, fmt, outDir, q⟩)
    have hres : ∃ r, (convert_audio env ⟨file, fmt, outDir, q⟩).result = .ok r := by
      cases c with
      | zero =>
        refine ⟨.success (outputFile ⟨file, fmt, outDir, q⟩), ?_⟩
        simp [convert_audio, hc]
      | succ n =>
        refine ⟨.failure (cpeStr (buildCmd ⟨file, fmt, outDir, q⟩) (n + 1)), ?_⟩
        simp [convert_audio, hc]
    obtain ⟨r, hr⟩ := hres
    simp only [processFiles, hr]
    exact ih _ _ _

/-- Characterisation of a finished batch: the pairs cover exactly the matched
files in enumeration order and the counters count the pair outcomes. -/
theorem batch_report_spec (env : ProcEnv) (fs : FS) (root : PyPath)
    (fmt : String) (outDir : Option PyPath) (q : String) (recursive : Bool)
    (ps : List (PyPath × ConvertReturn)) (s f : Nat)
    (h : batch_convert env fs root fmt outDir q recursive = .report ps s f) :
    ps.map Prod.fst = m4aFiles fs root recursive ∧
    s = (ps.filter fun pr => isSuccessRet pr.2).length ∧
    f = (ps.filter fun pr => !isSuccessRet pr.2).length := by
  unfold batch_convert at h
  split at h
  · split at h
    · simp at h
    · cases hp : processFiles env fmt outDir q (m4aFiles fs root recursive) [] 0 0 with
      | error e => rw [hp] at h; simp at h
      | ok out =>
        obtain ⟨ps', s', f'⟩ := out
        rw [hp] at h
        simp only [BatchOutcome.report.injEq] at h
        obtain ⟨h1, h2, h3⟩ := h
        subst h1; subst h2; subst h3
        have := processFiles_ok_spec env fmt outDir q
          (m4aFiles fs root recursive) [] 0 0 ps' s' f' hp rfl rfl
        simpa using this
  · simp at h

/-! Section: C2: counter invariant -/

/-- C2: whenever a batch reaches the report stage, successCount + failCount
equals the number of matched files discovered, and each processed file is
counted by exactly one of the two counters (the counters are the sizes of the
success / failure halves of the recorded pairs, which partition them). -/
theorem batch_counts_invariant (env : ProcEnv) (fs : FS) (root : PyPath)
    (fmt : String) (outDir : Option PyPath) (q : String) (recursive : Bool)
    (ps : List (PyPath × ConvertReturn)) (s f : Nat)
    (h : batch_convert env fs root fmt outDir q recursive = .report ps s f) :
    s + f = (m4aFiles fs root recursive).length ∧
    (m4aFiles fs root recursive).length = (discover fs recursive).length ∧
    ps.length = (m4aFiles fs root recursive).length ∧
    s = (ps.filter fun pr => isSuccessRet pr.2).length ∧
    f = (ps.filter fun pr => !isSuccessRet pr.2).length := by
  obtain ⟨h1, h2, h3⟩ := batch_report_spec env fs root fmt outDir q recursive ps s f h
  have hlen : ps.length = (m4aFiles fs root recursive).length := by
    rw [← h1, List.length_map]
  refine ⟨?_, by simp [m4aFiles], hlen, h2, h3⟩
  rw [h2, h3, length_filter_bool_split, hlen]

/-- The pairs recorded when both files of `fsTree12` convert successfully. -/
def psAllOk : List (PyPath × ConvertReturn) :=
  [(⟨["music", "a.m4a"]⟩, .success ⟨["music", "a.mp3"]⟩),
   (⟨["music", "b.m4a"]⟩, .success ⟨["music", "b.mp3"]⟩)]

/-- C2 witness: a concrete two-file batch that reports 2 successes and 0
failures, with 2 + 0 equal to the number of discovered files. -/
theorem batch_counts_invariant_witness :
    2 + 0 = (m4aFiles fsTree12 ⟨["music"]⟩ false).length ∧
    (m4aFiles fsTree12 ⟨["music"]⟩ false).length = (discover fsTree12 false).length ∧
    psAllOk.length = (m4aFiles fsTree12 ⟨["music"]⟩ false).length ∧
    2 = (psAllOk.filter fun pr => isSuccessRet pr.2).length ∧
    0 = (psAllOk.filter fun pr => !isSuccessRet pr.2).length :=
  batch_counts_invariant envAllOk fsTree12 ⟨["music"]⟩ "mp3" none "high" false
    psAllOk 2 0 (by decide)

/-! Section: C5: per-file failure isolation -/

/-- C5: as long as every ffmpeg invocation actually launches (yields an exit
code, successful or not), no per-file outcome ever aborts the batch: the run
never surfaces an exception, and any report covers every matched file in
enumeration order regardless of how many conversions failed. -/
theorem batch_failure_isolation (env : ProcEnv) (fs : FS) (root : PyPath)
    (fmt : String) (outDir : Option PyPath) (q : String) (recursive : Bool)
    (henv : ∀ cmd, ∃ c, env cmd = .exited c) :
    (∀ e, batch_convert env fs root fmt outDir q recursive ≠ .raised e) ∧
    (∀ ps s f, batch_convert env fs root fmt outDir q recursive = .report ps s f →
      ps.map Prod.fst = m4aFiles fs root recursive) := by
  constructor
  · intro e hcontra
    unfold batch_convert at hcontra
    split at hcontra
    · split at hcontra
      · simp at hcontra
      · obtain ⟨out, hout⟩ :=
          processFiles_no_raise env fmt outDir q henv (m4aFiles fs root recursive) [] 0 0
        rw [hout] at hcontra
        obtain ⟨ps, s, f⟩ := out
        simp at hcontra
    · simp at hcontra
  · intro ps s f hrep
    exact (batch_report_spec env fs root fmt outDir q recursive ps s f hrep).1

/-- The pairs recorded when both files of `fsTree12` fail with exit 1. -/
def psAllFail : List (PyPath × ConvertReturn) :=
  [(⟨["music", "a.m4a"]⟩,
      .failure (cpeStr (buildCmd ⟨⟨["music", "a.m4a"]⟩, "mp3", none, "high"⟩) 1)),
   (⟨["music", "b.m4a"]⟩,
      .failure (cpeStr (buildCmd ⟨⟨["music", "b.m4a"]⟩, "mp3", none, "high"⟩) 1))]

/-- C5 witness: with every conversion failing (exit 1), the concrete batch is
not aborted and still processes both matched files in order. -/
theorem batch_failure_isolation_witness :
    psAllFail.map Prod.fst = m4aFiles fsTree12 ⟨["music"]⟩ false ∧
    batch_convert envAllFail fsTree12 ⟨["music"]⟩ "mp3" none "high" false ≠
      .raised (.fileNotFoundError "ffmpeg") := by
  have h := batch_failure_isolation envAllFail fsTree12 ⟨["music"]⟩ "mp3" none
    "high" false (fun cmd => ⟨1, rfl⟩)
  exact ⟨h.2 psAllFail 0 2 (by decide), h.1 (.fileNotFoundError "ffmpeg")⟩

/-! Section: C8: output path resolution, mkdir, overwrite flag -/

/-- All ancestor directories of a component path, the path itself included:
`["a"], ["a","b"], ...` for `["a","b",...]`. -/
def ancestorsIncl (p : List String) : List (List String) :=
  (List.range p.length).map (fun i => p.take (i + 1))

/-- Python `Path.mkdir(parents=True, exist_ok=True)` over a set of existing
directories: every missing ancestor of the target (and the target) is
created; existing ones are left alone. -/
def mkdirP (dirs : List (List String)) (target : List String) :
    List (List String) :=
  dirs ++ (ancestorsIncl target).filter (fun a => decide (a ∉ dirs))

/-- After `mkdirP`, every ancestor of the target (target included) exists. -/
theorem mem_mkdirP (dirs : List (List String)) (target : List String)
    (a : List String) (h : a ∈ ancestorsIncl target) : a ∈ mkdirP dirs target := by
  by_cases hd : a ∈ dirs
  · exact List.mem_append.2 (Or.inl hd)
  · exact List.mem_append.2 (Or.inr (List.mem_filter.2 ⟨h, by simpa using hd⟩))

/-- C8: `convert_audio` invokes `mkdir(parents=True, exist_ok=True)` exactly
on the configured output directory when one is set (and `mkdirP` then
guarantees that directory and all its missing ancestors exist); the output
path is the resolved output directory — the configured one, else the input's
parent — joined with the input's base name carrying the target format's
extension; and the unconditional overwrite flag `-y` is always in the argv,
directly before the output path, which is the final argument. -/
theorem output_path_resolution (env : ProcEnv) (req : ConversionRequest) :
    (convert_audio env req).mkdirTarget = req.outputDir ∧
    (∀ dirs d, req.outputDir = some d →
      ∀ a, a ∈ ancestorsIncl d.parts → a ∈ mkdirP dirs d.parts) ∧
    (outputFile req).parts =
      (match req.outputDir with
        | some d => d.parts
        | none => req.inputFile.parts.dropLast) ++
        [pyStem (pyName req.inputFile) ++ "." ++ req.outputFormat] ∧
    pyName (outputFile req) = pyStem (pyName req.inputFile) ++ "." ++ req.outputFormat ∧
    "-y" ∈ buildCmd req ∧
    (buildCmd req).getLast? = some (outputFile req).toStr := by
  refine ⟨rfl, fun dirs d hd a ha => mem_mkdirP dirs d.parts a ha, ?_, ?_, ?_, ?_⟩
  · cases hreq : req.outputDir <;> simp [outputFile, outDirOf, hreq]
  · simp [pyName, outputFile, List.getLastD_concat]
  · simp [buildCmd]
  · have : buildCmd req =
        (["ffmpeg", "-i", req.inputFile.toStr] ++
          codecArgs req.outputFormat req.quality ++ ["-y"]) ++
          [(outputFile req).toStr] := by
      simp [buildCmd]
    rw [this, List.getLast?_concat]

/-- A request with an explicit two-level output directory. -/
def reqOut : ConversionRequest :=
  ⟨⟨["music", "song.m4a"]⟩, "mp3", some ⟨["out", "sub"]⟩, "high"⟩

/-- C8 witness: for a concrete request with output directory `out/sub`,
mkdir is invoked on `out/sub`, both `out` and `out/sub` exist afterwards even
starting from no directories, the output name is `song.mp3`, and `-y` is
passed. -/
theorem output_path_resolution_witness :
    (convert_audio envAllOk reqOut).mkdirTarget = some ⟨["out", "sub"]⟩ ∧
    ["out"] ∈ mkdirP [] ["out", "sub"] ∧
    ["out", "sub"] ∈ mkdirP [] ["out", "sub"] ∧
    pyName (outputFile reqOut) = "song.mp3" ∧
    "-y" ∈ buildCmd reqOut := by
  have h := output_path_resolution envAllOk reqOut
  refine ⟨h.1, h.2.1 [] ⟨["out", "sub"]⟩ rfl ["out"] (by decide),
    h.2.1 [] ⟨["out", "sub"]⟩ rfl ["out", "sub"] (by decide), ?_, h.2.2.2.2.1⟩
  rw [h.2.2.2.1]
  rfl
